import Mathlib

/-!
Verification of the YouTube multi-language dubbing backend
(src/backend/pipeline.py, src/backend/utils.py, src/backend/main.py,
src/backend/_download_scraper.py).

Modelling conventions:
* All times are integer milliseconds. The source keeps segment times as
  float seconds and converts with `int(t * 1000)` exactly where pydub needs
  milliseconds; we work directly at that millisecond granularity.
* Mutable process state (the `jobs` dict) is passed explicitly.
* Fallible external collaborators (browser scraping, Demucs, Whisper,
  googletrans, edge-tts, pydub file loading, ffmpeg) are abstracted as
  `Except String`-valued parameters: `.error e` models the call raising an
  exception with message `e`.
* `pydub.AudioSegment` clips are tracked by their duration;
  `clip.speedup(playback_speed=r)` is modelled as dividing the duration by
  `r` (exact rational arithmetic stands in for the sample-level rounding).
-/

deriving instance DecidableEq for Except

namespace YtDub

/-! ## Job store (pipeline.py lines 26-33) — claim C9 -/

/-- A Python value stored in a job record field. -/
inductive PyVal
  | vstr (s : String)
  | vnat (n : Nat)
  | vnone
  deriving DecidableEq

/-- One job's state dict: a map from field names to values. -/
def JobFields : Type := String → Option PyVal

/-- The process-wide `jobs` dict keyed by job id (pipeline.py line 26). -/
def Jobs : Type := String → Option JobFields

/-- A freshly created empty record (`jobs[job_id] = {}`, line 32). -/
def emptyFields : JobFields := fun _ => Option.none

/-- `update_job(job_id, **kwargs)` (pipeline.py lines 29-33): if the id is
absent, create an empty record, then `dict.update` the keyword arguments
into it.  `kwargs` is the keyword-argument dict as an association list
(Python keyword arguments have pairwise distinct keys). -/
def update_job (jobs : Jobs) (job_id : String) (kwargs : List (String × PyVal)) : Jobs :=
  let base : JobFields := (jobs job_id).getD emptyFields
  fun id =>
    if id = job_id then
      some (fun k =>
        match kwargs.lookup k with
        | some v => some v
        | Option.none => base k)
    else jobs id

/-! ## Language maps (utils.py lines 47-82) — claim C10 -/

/-- Python's `str.lower()` as used on language names (utils.py lines 63 and
82).  Every key of the tables is ASCII, so lower-casing each character in
the ASCII range models it exactly. -/
def py_lower (s : String) : String := ⟨s.data.map Char.toLower⟩

/-- The Edge-TTS voice table (utils.py lines 49-62). -/
def voice_map : List (String × String) :=
  [("spanish", "es-ES-AlvaroNeural"),
   ("french", "fr-FR-HenriNeural"),
   ("german", "de-DE-ConradNeural"),
   ("japanese", "ja-JP-KeitaNeural"),
   ("chinese", "zh-CN-YunxiNeural"),
   ("korean", "ko-KR-InJoonNeural"),
   ("portuguese", "pt-BR-AntonioNeural"),
   ("italian", "it-IT-DiegoNeural"),
   ("arabic", "ar-SA-HamedNeural"),
   ("hindi", "hi-IN-MadhurNeural"),
   ("russian", "ru-RU-DmitryNeural"),
   ("turkish", "tr-TR-AhmetNeural")]

/-- `get_language_voice` (utils.py lines 47-63):
`voice_map.get(language.lower(), "es-ES-AlvaroNeural")`. -/
def get_language_voice (language : String) : String :=
  (voice_map.lookup (py_lower language)).getD "es-ES-AlvaroNeural"

/-- The ISO language-code table (utils.py lines 68-81). -/
def code_map : List (String × String) :=
  [("spanish", "es"),
   ("french", "fr"),
   ("german", "de"),
   ("japanese", "ja"),
   ("chinese", "zh-cn"),
   ("korean", "ko"),
   ("portuguese", "pt"),
   ("italian", "it"),
   ("arabic", "ar"),
   ("hindi", "hi"),
   ("russian", "ru"),
   ("turkish", "tr")]

/-- `get_language_code` (utils.py lines 66-82):
`code_map.get(language.lower(), "es")`. -/
def get_language_code (language : String) : String :=
  (code_map.lookup (py_lower language)).getD "es"

/-! ## Overrun compression (pipeline.py lines 326-332) — claim C4 -/

/-- Duration in ms of a synthesized clip after the overrun-compression step
of the assembly loop (pipeline.py lines 329-331):

    seg_duration_ms = int((tts["end"] - tts["start"]) * 1000)
    if len(clip) > seg_duration_ms * 1.5:
        clip = clip.speedup(playback_speed=len(clip) / max(seg_duration_ms, 1))

`clipLen` is `len(clip)` and `slotLen` is `seg_duration_ms`, both integer
milliseconds; `speedup` divides the duration by the playback speed.  Over
the integers, `len(clip) > seg_duration_ms * 1.5` holds exactly when
`3 * seg_duration_ms < 2 * len(clip)` (1.5 is exact in floating point and
both operands are integers), which is the guard used here. -/
def placed_clip_len (clipLen slotLen : ℕ) : ℚ :=
  if 3 * slotLen < 2 * clipLen then
    (clipLen : ℚ) / ((clipLen : ℚ) / ((max slotLen 1 : ℕ) : ℚ))
  else (clipLen : ℚ)

/-! ## Theorems for C9, C10, C4 -/

/-- C9: for every job id and every set of named fields, `update_job` merges
exactly the named fields into the record (each named field takes its new
value, every field not named keeps the value it had, with the record
created empty first when it was absent), and every other job id's record is
left untouched.  `update_job` is a total function, so an update never
fails. -/
theorem update_job_merges (jobs : Jobs) (job_id : String) (kwargs : List (String × PyVal)) :
    (∃ rec, update_job jobs job_id kwargs job_id = some rec
      ∧ (∀ k v, kwargs.lookup k = some v → rec k = some v)
      ∧ (∀ k, kwargs.lookup k = Option.none → rec k = ((jobs job_id).getD emptyFields) k))
    ∧ (∀ id, id ≠ job_id → update_job jobs job_id kwargs id = jobs id) := by
  constructor
  · refine ⟨fun k =>
      match kwargs.lookup k with
      | some v => some v
      | Option.none => ((jobs job_id).getD emptyFields) k, ?_, ?_, ?_⟩
    · simp [update_job]
    · intro k v hk
      simp [hk]
    · intro k hk
      simp [hk]
  · intro id hid
    simp [update_job, hid]

/-- C9 witness: updating a fresh store at job id "j" with
`progress=0, error=None` creates the record, stores the named fields and
leaves an unnamed field ("status") absent. -/
theorem update_job_merges_witness :
    (∃ rec, update_job (fun _ => Option.none) "j"
        [("progress", PyVal.vnat 0), ("error", PyVal.vnone)] "j" = some rec
      ∧ rec "progress" = some (PyVal.vnat 0)
      ∧ rec "error" = some PyVal.vnone
      ∧ rec "status" = Option.none) := by
  obtain ⟨⟨rec, hrec, hnamed, hother⟩, -⟩ :=
    update_job_merges (fun _ => Option.none) "j"
      [("progress", PyVal.vnat 0), ("error", PyVal.vnone)]
  refine ⟨rec, hrec, ?_, ?_, ?_⟩
  · exact hnamed "progress" (PyVal.vnat 0) (by decide)
  · exact hnamed "error" PyVal.vnone (by decide)
  · exact hother "status" (by decide)

/-- C10: the language-to-voice and language-to-code mappings are total
functions and case-insensitive: both compare the input lower-cased, any
language whose lower-casing is not a key of the map falls back silently to
the Spanish defaults (voice "es-ES-AlvaroNeural", code "es"), and two
spellings with the same lower-casing always map to the same voice and
code. -/
theorem language_maps_total_case_insensitive (s : String) :
    (voice_map.lookup (py_lower s) = Option.none → get_language_voice s = "es-ES-AlvaroNeural")
    ∧ (code_map.lookup (py_lower s) = Option.none → get_language_code s = "es")
    ∧ (∀ t : String, py_lower s = py_lower t →
        get_language_voice s = get_language_voice t
        ∧ get_language_code s = get_language_code t) := by
  refine ⟨fun h => ?_, fun h => ?_, fun t h => ⟨?_, ?_⟩⟩ <;>
    simp [get_language_voice, get_language_code, h]

/-- C10 witness: "Klingon" is not in the maps, so both lookups fall back to
the Spanish defaults, and "KLINGON" maps like "klingon". -/
theorem language_maps_witness :
    get_language_voice "Klingon" = "es-ES-AlvaroNeural"
    ∧ get_language_code "Klingon" = "es"
    ∧ get_language_voice "KLINGON" = get_language_voice "klingon" := by
  have h := language_maps_total_case_insensitive "Klingon"
  have h2 := language_maps_total_case_insensitive "KLINGON"
  exact ⟨h.1 (by decide), h.2.1 (by decide),
    ((h2.2.2 "klingon") (by decide)).1⟩

/-- C4: for a clip placed into a slot of positive duration
`slotLen = end - start` (ms), if the clip is longer than 1.5 times the
slot, its duration after the compression step equals the slot duration
exactly; otherwise the clip is placed with its duration unchanged. -/
theorem clip_compression_exact (clipLen slotLen : ℕ) (hslot : 0 < slotLen) :
    ((clipLen : ℚ) > (slotLen : ℚ) * 1.5 →
      placed_clip_len clipLen slotLen = slotLen)
    ∧ ((clipLen : ℚ) ≤ (slotLen : ℚ) * 1.5 →
      placed_clip_len clipLen slotLen = clipLen) := by
  constructor
  · intro h
    have hmax : max slotLen 1 = slotLen := Nat.max_eq_left hslot
    have hs1 : (1 : ℚ) ≤ (slotLen : ℚ) := by exact_mod_cast hslot
    have hc0 : (clipLen : ℚ) ≠ 0 := by nlinarith
    have hn : 3 * slotLen < 2 * clipLen := by
      have h2 : ((3 * slotLen : ℕ) : ℚ) < ((2 * clipLen : ℕ) : ℚ) := by
        push_cast
        nlinarith
      exact_mod_cast h2
    rw [placed_clip_len, if_pos hn, hmax]
    rw [div_div_eq_mul_div, mul_comm, mul_div_assoc, div_self hc0, mul_one]
  · intro h
    have hn : ¬ 3 * slotLen < 2 * clipLen := by
      intro hlt
      have h2 : ((3 * slotLen : ℕ) : ℚ) < ((2 * clipLen : ℕ) : ℚ) := by exact_mod_cast hlt
      push_cast at h2
      nlinarith
    rw [placed_clip_len, if_neg hn]

/-- C4 witness: the spec's own example — slot 2.0s (2000ms): a 5.0s clip
(ratio 2.5 > 1.5) is compressed to exactly 2000ms, while a 2.5s clip
(ratio 1.25 ≤ 1.5) is placed uncompressed at 2500ms. -/
theorem clip_compression_witness :
    placed_clip_len 5000 2000 = 2000 ∧ placed_clip_len 2500 2000 = 2500 := by
  have h1 := (clip_compression_exact 5000 2000 (by norm_num)).1 (by norm_num)
  have h2 := (clip_compression_exact 2500 2000 (by norm_num)).2 (by norm_num)
  constructor
  · exact_mod_cast h1
  · exact_mod_cast h2

/-! ## Pipeline data model (pipeline.py) -/

/-- One transcript segment (pipeline.py lines 244-249): start and end in
milliseconds, the source-language text, and — after the translate stage —
the `translated` field (`Option.none` models a dict without the key). -/
structure TimedSegment where
  startMs : ℕ
  endMs : ℕ
  text : String
  translated : Option String
  deriving DecidableEq

/-- `seg.get("translated", seg["text"])` (pipeline.py line 303). -/
def effective_text (seg : TimedSegment) : String := seg.translated.getD seg.text

/-- The fields of one job's record that the orchestrator writes.
`Option.none` models both "absent" and Python `None` (the source only ever
stores `None` into `error` and `output_file`, where the spec reads both as
"not set"). -/
structure JobRecord where
  status : Option String
  step : Option String
  progress : Option ℕ
  message : Option String
  error : Option String
  output_file : Option String
  deriving DecidableEq

/-- A job record together with the chronological list of `progress` values
named by the `update_job` calls applied to it (the instrumentation claims
C1/C2 reason over). -/
structure JobTrace where
  record : JobRecord
  prog : List ℕ
  deriving DecidableEq

/-- `update_job(job_id, step=…, progress=…, message=…)` — the
stage-entry/checkpoint call shape. -/
def upd_stage (j : JobTrace) (st : String) (p : ℕ) (m : String) : JobTrace :=
  { record := { j.record with step := some st, progress := some p, message := some m },
    prog := j.prog ++ [p] }

/-- `update_job(job_id, progress=…, message=…)` — the mid-stage call
shape. -/
def upd_prog (j : JobTrace) (p : ℕ) (m : String) : JobTrace :=
  { record := { j.record with progress := some p, message := some m },
    prog := j.prog ++ [p] }

/-- The orchestrator's entry update (pipeline.py lines 396-404):
`status="processing", step="starting", progress=0, message=…, error=None,
output_file=None`. -/
def upd_start (j : JobTrace) : JobTrace :=
  { record :=
      { j.record with
          status := some "processing"
          step := some "starting"
          progress := some 0
          message := some "Starting pipeline..."
          error := Option.none
          output_file := Option.none },
    prog := j.prog ++ [0] }

/-- The completion update (pipeline.py lines 424-430). -/
def upd_complete (j : JobTrace) (out : String) : JobTrace :=
  { record :=
      { j.record with
          status := some "completed"
          progress := some 100
          message := some "Dubbing complete! Your file is ready."
          output_file := some out },
    prog := j.prog ++ [100] }

/-- The failure update (pipeline.py lines 433-438): `status="failed",
message=f"Error: {e}", error=str(e)`; `progress` and `output_file` are not
named. -/
def upd_fail (j : JobTrace) (e : String) : JobTrace :=
  { record :=
      { j.record with
          status := some "failed"
          message := some ("Error: " ++ e)
          error := some e },
    prog := j.prog }

/-- The record main.py lines 65-72 creates at submission (a direct dict
assignment, not an `update_job` call, hence an empty progress trace). -/
def initial_job : JobTrace :=
  { record :=
      { status := some "queued"
        step := some "queued"
        progress := some 0
        message := some "Job queued, saving uploaded file..."
        error := Option.none
        output_file := Option.none },
    prog := [] }

/-! ## Pipeline stages (pipeline.py lines 42-340)

Each stage takes the abstract outcome of its external collaborator and the
job trace, performs its `update_job` calls in source order, and returns the
updated trace together with its result; `.error e` models the stage raising
with message `e`.  When the collaborator fails, the updates the source
would have issued after the failing call are not applied. -/

/-- `download_video` (pipeline.py lines 42-187).  The browser scrape, the
HTTP streaming and the ffmpeg audio extraction are abstracted as `res`. -/
def download_video (res : Except String Unit) (j : JobTrace) :
    JobTrace × Except String Unit :=
  let j := upd_stage j "downloading" 5 "Launching headless browser..."
  match res with
  | .error e => (j, .error e)
  | .ok _ =>
    let j := upd_prog j 7 "Navigating to Publer downloader..."
    let j := upd_prog j 10 "Injecting YouTube URL..."
    let j := upd_prog j 12 "Triggering download on Publer..."
    let j := upd_prog j 15 "Waiting for Publer to process video (up to 60s)..."
    let j := upd_prog j 20 "Downloading video file..."
    let j := upd_prog j 25 "Extracting audio track..."
    (upd_prog j 30 "Download complete", .ok ())

/-- `separate_audio` (pipeline.py lines 193-230); the Demucs subprocess and
its output scan are abstracted as `res`.  Note the entry update writes
`progress=20` (line 195). -/
def separate_audio (res : Except String Unit) (j : JobTrace) :
    JobTrace × Except String Unit :=
  let j := upd_stage j "separating" 20 "Separating vocals from background audio..."
  match res with
  | .error e => (j, .error e)
  | .ok _ => (upd_prog j 35 "Audio separation complete", .ok ())

/-- `transcribe_audio` (pipeline.py lines 236-255); Whisper is abstracted
as `res`.  An empty segment list raises "No speech detected in the audio"
(lines 251-252). -/
def transcribe_audio (res : Except String (List TimedSegment)) (j : JobTrace) :
    JobTrace × Except String (List TimedSegment) :=
  let j := upd_stage j "transcribing" 40 "Transcribing speech..."
  match res with
  | .error e => (j, .error e)
  | .ok segments =>
    if segments.isEmpty then (j, .error "No speech detected in the audio")
    else
      let n := segments.length
      (upd_prog j 55 s!"Transcribed {n} segments", .ok segments)

/-- One segment's translation (pipeline.py lines 269-278): empty text gets
`translated=""` without calling the translator; otherwise the translator's
failure falls back to the original text. -/
def translate_one (tr : String → Except String String) (seg : TimedSegment) :
    TimedSegment :=
  if seg.text = "" then { seg with translated := some "" }
  else
    match tr seg.text with
    | .ok t => { seg with translated := some t }
    | .error _ => { seg with translated := some seg.text }

/-- The translate loop (pipeline.py lines 268-282): `i` is the enumerate
index, `n = len(segments)`.  An empty-text segment is appended and skipped
(`continue`, line 272) without a progress update; otherwise after the
segment is appended the loop issues
`update_job(progress=60 + int(15*(i+1)/n), message=…)`. -/
def translate_loop (tr : String → Except String String) (n : ℕ) :
    List TimedSegment → ℕ → JobTrace → JobTrace × List TimedSegment
  | [], _, j => (j, [])
  | seg :: rest, i, j =>
    if seg.text = "" then
      let r := translate_loop tr n rest (i + 1) j
      (r.1, translate_one tr seg :: r.2)
    else
      let j2 := upd_prog j (60 + 15 * (i + 1) / n) s!"Translated {i + 1}/{n} segments"
      let r := translate_loop tr n rest (i + 1) j2
      (r.1, translate_one tr seg :: r.2)

/-- `translate_segments` (pipeline.py lines 261-284).  It never raises:
every per-segment failure is recovered by the fallback. -/
def translate_segments (tr : String → Except String String)
    (segs : List TimedSegment) (j : JobTrace) : JobTrace × List TimedSegment :=
  let j := upd_stage j "translating" 60 "Translating text..."
  translate_loop tr segs.length segs 0 j

/-- One entry of the `tts_files` list (pipeline.py lines 310-314): a handle
to the saved clip plus the segment's timestamps. -/
structure TtsFile where
  clip : ℕ
  startMs : ℕ
  endMs : ℕ
  deriving DecidableEq

/-- The TTS generation loop (pipeline.py lines 301-314): `i` is the
enumerate index; a segment whose effective text is empty is skipped
(`continue`); the `edge_tts` synthesis call (`synth i text`, modelling
`communicate.save`) is **not** guarded, so its failure propagates out of
the stage. -/
def gen_clips (synth : ℕ → String → Except String ℕ) :
    List TimedSegment → ℕ → Except String (List TtsFile)
  | [], _ => .ok []
  | seg :: rest, i =>
    let text := effective_text seg
    if text = "" then gen_clips synth rest (i + 1)
    else
      match synth i text with
      | .error e => .error e
      | .ok c =>
        match gen_clips synth rest (i + 1) with
        | .error e => .error e
        | .ok files => .ok ({ clip := c, startMs := seg.startMs, endMs := seg.endMs } :: files)

/-- The assembled speech track: its allocated duration and the placements
`(position_ms, placed clip duration)` overlaid so far.  `overlay` never
changes the base track's duration. -/
structure Track where
  durationMs : ℕ
  placements : List (ℕ × ℚ)
  deriving DecidableEq

/-- `max(seg["end"] for seg in segments)` (pipeline.py line 321), in ms. -/
def max_end (segs : List TimedSegment) : ℕ :=
  segs.foldl (fun a s => max a s.endMs) 0

/-- The assembly loop (pipeline.py lines 324-334).  Loading the clip (and
any per-clip processing) may fail; the `except: continue` skips the clip
and keeps going.  A loaded clip is compressed by `placed_clip_len` and
overlaid at `position_ms = int(start * 1000)`. -/
def overlay_clips (load : ℕ → Except String ℕ) :
    List TtsFile → Track → Track
  | [], t => t
  | f :: rest, t =>
    match load f.clip with
    | .error _ => overlay_clips load rest t
    | .ok clipLen =>
      overlay_clips load rest
        { t with placements :=
            t.placements ++ [(f.startMs, placed_clip_len clipLen (f.endMs - f.startMs))] }

/-- `synthesize_tts` (pipeline.py lines 290-340): generate clips (skipping
empty texts, propagating synthesis errors), raise
"No TTS segments generated" when no clip was produced, then allocate a
silent track of `int(max_end * 1000) + 5000` ms and overlay each loadable
clip. -/
def synthesize_tts (synth : ℕ → String → Except String ℕ)
    (load : ℕ → Except String ℕ) (segs : List TimedSegment) (j : JobTrace) :
    JobTrace × Except String Track :=
  let j := upd_stage j "synthesizing" 75 "Generating dubbed audio..."
  match gen_clips synth segs 0 with
  | .error e => (j, .error e)
  | .ok tts_files =>
    if tts_files.isEmpty then (j, .error "No TTS segments generated")
    else
      let full_track : Track := { durationMs := max_end segs + 5000, placements := [] }
      let full_track := overlay_clips load tts_files full_track
      (upd_prog j 85 "TTS synthesis complete", .ok full_track)

/-- `mix_audio_video` (pipeline.py lines 346-387); the two ffmpeg runs are
abstracted as `res`, whose failure is re-raised as
`f"FFmpeg mixing failed: …"` (lines 383-384). -/
def mix_audio_video (res : Except String Unit) (j : JobTrace) :
    JobTrace × Except String String :=
  let j := upd_stage j "mixing" 88 "Mixing final audio and video..."
  match res with
  | .error e => (j, .error ("FFmpeg mixing failed: " ++ e))
  | .ok _ => (upd_prog j 95 "Final video rendered", .ok "dubbed_output.mp4")

/-- The external collaborators of one run (§6 of the spec): each field is
the abstract outcome of the corresponding black box. -/
structure Env where
  download : Except String Unit
  separate : Except String Unit
  transcribe : Except String (List TimedSegment)
  translator : String → Except String String
  synth : ℕ → String → Except String ℕ
  load : ℕ → Except String ℕ
  mix : Except String Unit

/-- `run_pipeline` (pipeline.py lines 393-438): the six stages strictly in
order inside one try/except; the first stage exception short-circuits to
the failure update, success ends with the completion update. -/
def run_pipeline (env : Env) (j : JobTrace) : JobTrace :=
  let d := download_video env.download (upd_start j)
  match d.2 with
  | .error e => upd_fail d.1 e
  | .ok _ =>
    let s := separate_audio env.separate d.1
    match s.2 with
    | .error e => upd_fail s.1 e
    | .ok _ =>
      let t := transcribe_audio env.transcribe s.1
      match t.2 with
      | .error e => upd_fail t.1 e
      | .ok segments =>
        let tl := translate_segments env.translator segments t.1
        let sy := synthesize_tts env.synth env.load tl.2 tl.1
        match sy.2 with
        | .error e => upd_fail sy.1 e
        | .ok _track =>
          let m := mix_audio_video env.mix sy.1
          match m.2 with
          | .error e => upd_fail m.1 e
          | .ok out => upd_complete m.1 out

/-! ## Concrete runs used by C1 and the counterexamples -/

/-- A one-segment transcript. -/
def seg_demo : TimedSegment :=
  { startMs := 0, endMs := 2000, text := "hi", translated := Option.none }

/-- An environment where every collaborator succeeds. -/
def env_all_ok : Env :=
  { download := .ok (), separate := .ok (),
    transcribe := .ok [seg_demo],
    translator := fun t => .ok t,
    synth := fun i _ => .ok i,
    load := fun _ => .ok 1000,
    mix := .ok () }

/-- `true` iff the list never decreases from one element to the next. -/
def progress_nondecreasing : List ℕ → Bool
  | [] => true
  | [_] => true
  | a :: b :: rest => decide (a ≤ b) && progress_nondecreasing (b :: rest)

/-- C1 (code bug): the `progress` values written by the `update_job` calls
of one fully successful run are NOT monotonically non-decreasing:
`download_video` ends with `progress=30` (pipeline.py line 186) and the
very next update, `separate_audio`'s entry (line 195), writes
`progress=20`. -/
theorem progress_trace_not_monotone :
    progress_nondecreasing (run_pipeline env_all_ok initial_job).prog = false := by
  decide

/-! ## Acquisition strategy chain (_download_scraper.py) — claim C5 -/

/-- The outcome of one acquisition strategy
(`try_ytdlp` / `try_publer`, _download_scraper.py): `success` carries the
payload (the output path) and the strategy string of the result dict;
`skipped` carries the single `reason` of a `{"skipped": True}` result;
`failed` carries the `errors` **list** of a `{"skipped": False}` result. -/
inductive StratResult
  | success (payload : String) (strategy : String)
  | skipped (reason : String)
  | failed (errors : List String)
  deriving DecidableEq

/-- The diagnostic entries one strategy contributes to `all_errors`
(main, _download_scraper.py lines 356-361 and 368-373): one
`"{label}: {reason}"` entry for a skip, and one `"{label}: {err}"` entry
per element of a failure's `errors` list. -/
def strat_entries (label : String) : StratResult → List String
  | .success _ _ => []
  | .skipped reason => [label ++ ": " ++ reason]
  | .failed errs => errs.map (fun e => label ++ ": " ++ e)

/-- Whether a strategy result is a success. -/
def is_success : StratResult → Bool
  | .success _ _ => true
  | .skipped _ => false
  | .failed _ => false

/-- All entries the chain records over a strategy list, in order. -/
def chain_entries (strats : List (String × StratResult)) : List String :=
  (strats.map (fun p => strat_entries p.1 p.2)).flatten

/-- `main` (_download_scraper.py lines 338-386) generalized over the
ordered strategy list (the source unrolls it for
`[("yt-dlp", try_ytdlp …), ("publer", try_publer …)]`, handling each
result with the same code): on the first success, print that result and
exit 0; otherwise append the strategy's entries to `all_errors` and fall
through; when the list is exhausted, exit 1 with the aggregate
(`" | ".join(all_errors)`, line 376 — we return the entry list itself,
the join being presentation). -/
def run_chain : List (String × StratResult) → List String →
    Except (List String) (String × String)
  | [], acc => .error acc
  | (label, r) :: rest, acc =>
    match r with
    | .success payload strategy => .ok (payload, strategy)
    | .skipped reason => run_chain rest (acc ++ strat_entries label (.skipped reason))
    | .failed errs => run_chain rest (acc ++ strat_entries label (.failed errs))

/-- One yt-dlp format attempt's observable outcome
(_download_scraper.py lines 105-130). -/
inductive FormatAttempt
  | downloaded (size : ℕ)
  | noFile
  | raised (msg : String)
  deriving DecidableEq

/-- `try_ytdlp`'s loop over `format_strategies` (lines 101-132): the first
attempt that leaves a video file larger than 1024 bytes wins and returns a
success labelled `"yt-dlp/{label}"`; every failed attempt appends exactly
one error entry; exhaustion returns `{"skipped": False, "errors": errors}`. -/
def try_ytdlp_loop (output_path : String) :
    List (String × FormatAttempt) → List String → StratResult
  | [], errs => .failed errs
  | (label, a) :: rest, errs =>
    match a with
    | .downloaded size =>
      if 1024 < size then .success output_path ("yt-dlp/" ++ label)
      else try_ytdlp_loop output_path rest
        (errs ++ [label ++ s!": file too small ({size} bytes)"])
    | .noFile => try_ytdlp_loop output_path rest
        (errs ++ [label ++ ": no video file found after download"])
    | .raised m => try_ytdlp_loop output_path rest (errs ++ [label ++ ": " ++ m])

/-- A run in which both strategies fail: yt-dlp is not installed (a skip,
one reason) and Publer times out (a failure carrying two reasons, lines
266-273 of _download_scraper.py). -/
def chain_cx : List (String × StratResult) :=
  [("yt-dlp", .skipped "yt-dlp not installed"),
   ("publer", .failed
     ["Publer did not produce a download link within 120s",
      "Page state: no form"])]

/-- C5 counterexample: with N = 2 strategies, both failing, the aggregate
holds 3 entries, not exactly N = 2 — a failed strategy contributes one
entry per reason it reports, and Publer's timeout reports two. -/
theorem chain_entry_count_cx :
    run_chain chain_cx []
      = .error
        ["yt-dlp: yt-dlp not installed",
         "publer: Publer did not produce a download link within 120s",
         "publer: Page state: no form"]
    ∧ chain_cx.length = 2 := by
  exact ⟨rfl, rfl⟩

/-- C5 (amended): the chain iterates its strategies in order and returns
immediately on the first success with that strategy's payload and label,
the later strategies never examined and the recorded diagnostics
discarded; a skip records one "{label}: {reason}" entry and a failure one
"{label}: {reason}" entry per reason the strategy reports (a failed
strategy may report several); when every strategy is exhausted the chain
fails with all recorded entries, in order, none dropped. -/
theorem chain_first_success_and_aggregate :
    (∀ strats acc, (∀ p ∈ strats, is_success p.2 = false) →
      run_chain strats acc = .error (acc ++ chain_entries strats))
    ∧ (∀ pre label payload strategy post acc,
      (∀ p ∈ pre, is_success p.2 = false) →
      run_chain (pre ++ (label, StratResult.success payload strategy) :: post) acc
        = .ok (payload, strategy)) := by
  have exhaust : ∀ strats acc,
      (∀ p ∈ strats, is_success p.2 = false) →
      run_chain strats acc = .error (acc ++ chain_entries strats) := by
    intro strats
    induction strats with
    | nil => intro acc _; simp [run_chain, chain_entries]
    | cons hd tl ih =>
      intro acc hns
      obtain ⟨label, r⟩ := hd
      cases r with
      | success pl st => simpa [is_success] using hns (label, .success pl st) (by simp)
      | skipped reason =>
        rw [run_chain, ih _ (fun p hp => hns p (by simp [hp]))]
        simp [chain_entries]
      | failed errs =>
        rw [run_chain, ih _ (fun p hp => hns p (by simp [hp]))]
        simp [chain_entries]
  refine ⟨exhaust, ?_⟩
  intro pre
  induction pre with
  | nil => intro label payload strategy post acc _; simp [run_chain]
  | cons hd tl ih =>
    intro label payload strategy post acc hns
    obtain ⟨l, r⟩ := hd
    cases r with
    | success pl st => simpa [is_success] using hns (l, .success pl st) (by simp)
    | skipped reason =>
      rw [List.cons_append, run_chain]
      exact ih label payload strategy post _ (fun p hp => hns p (by simp [hp]))
    | failed errs =>
      rw [List.cons_append, run_chain]
      exact ih label payload strategy post _ (fun p hp => hns p (by simp [hp]))

/-- C5 witness: the amended theorem at concrete inputs — the all-fail run
aggregates all three entries in order, and prefixing a successful yt-dlp
attempt short-circuits with its payload and label, ignoring what follows. -/
theorem chain_first_success_witness :
    run_chain chain_cx []
      = .error
        ["yt-dlp: yt-dlp not installed",
         "publer: Publer did not produce a download link within 120s",
         "publer: Page state: no form"]
    ∧ run_chain
        (("yt-dlp", StratResult.skipped "yt-dlp not installed")
          :: ("publer", StratResult.success "/tmp/source.mp4" "publer") :: chain_cx) []
      = .ok ("/tmp/source.mp4", "publer") := by
  constructor
  · have h := chain_first_success_and_aggregate.1 chain_cx [] (by decide)
    rw [h]; rfl
  · exact chain_first_success_and_aggregate.2
      [("yt-dlp", StratResult.skipped "yt-dlp not installed")]
      "publer" "/tmp/source.mp4" "publer" chain_cx [] (by decide)

/-! ## Structural lemmas: which record fields each update and stage writes -/

@[simp]
theorem upd_stage_status (j : JobTrace) (st : String) (p : ℕ) (m : String) :
    (upd_stage j st p m).record.status = j.record.status := rfl

@[simp]
theorem upd_stage_error (j : JobTrace) (st : String) (p : ℕ) (m : String) :
    (upd_stage j st p m).record.error = j.record.error := rfl

@[simp]
theorem upd_stage_output (j : JobTrace) (st : String) (p : ℕ) (m : String) :
    (upd_stage j st p m).record.output_file = j.record.output_file := rfl

@[simp]
theorem upd_stage_step (j : JobTrace) (st : String) (p : ℕ) (m : String) :
    (upd_stage j st p m).record.step = some st := rfl

@[simp]
theorem upd_prog_status (j : JobTrace) (p : ℕ) (m : String) :
    (upd_prog j p m).record.status = j.record.status := rfl

@[simp]
theorem upd_prog_error (j : JobTrace) (p : ℕ) (m : String) :
    (upd_prog j p m).record.error = j.record.error := rfl

@[simp]
theorem upd_prog_output (j : JobTrace) (p : ℕ) (m : String) :
    (upd_prog j p m).record.output_file = j.record.output_file := rfl

@[simp]
theorem upd_prog_step (j : JobTrace) (p : ℕ) (m : String) :
    (upd_prog j p m).record.step = j.record.step := rfl

@[simp]
theorem upd_fail_status (j : JobTrace) (e : String) :
    (upd_fail j e).record.status = some "failed" := rfl

@[simp]
theorem upd_fail_error (j : JobTrace) (e : String) :
    (upd_fail j e).record.error = some e := rfl

@[simp]
theorem upd_fail_output (j : JobTrace) (e : String) :
    (upd_fail j e).record.output_file = j.record.output_file := rfl

@[simp]
theorem upd_fail_step (j : JobTrace) (e : String) :
    (upd_fail j e).record.step = j.record.step := rfl

@[simp]
theorem upd_complete_status (j : JobTrace) (out : String) :
    (upd_complete j out).record.status = some "completed" := rfl

@[simp]
theorem upd_complete_error (j : JobTrace) (out : String) :
    (upd_complete j out).record.error = j.record.error := rfl

@[simp]
theorem upd_complete_output (j : JobTrace) (out : String) :
    (upd_complete j out).record.output_file = some out := rfl

@[simp]
theorem upd_start_status (j : JobTrace) :
    (upd_start j).record.status = some "processing" := rfl

@[simp]
theorem upd_start_error (j : JobTrace) :
    (upd_start j).record.error = Option.none := rfl

@[simp]
theorem upd_start_output (j : JobTrace) :
    (upd_start j).record.output_file = Option.none := rfl

@[simp]
theorem download_video_status (res : Except String Unit) (j : JobTrace) :
    (download_video res j).1.record.status = j.record.status := by
  cases res <;> rfl

@[simp]
theorem download_video_error (res : Except String Unit) (j : JobTrace) :
    (download_video res j).1.record.error = j.record.error := by
  cases res <;> rfl

@[simp]
theorem download_video_output (res : Except String Unit) (j : JobTrace) :
    (download_video res j).1.record.output_file = j.record.output_file := by
  cases res <;> rfl

@[simp]
theorem download_video_step (res : Except String Unit) (j : JobTrace) :
    (download_video res j).1.record.step = some "downloading" := by
  cases res <;> rfl

@[simp]
theorem separate_audio_status (res : Except String Unit) (j : JobTrace) :
    (separate_audio res j).1.record.status = j.record.status := by
  cases res <;> rfl

@[simp]
theorem separate_audio_error (res : Except String Unit) (j : JobTrace) :
    (separate_audio res j).1.record.error = j.record.error := by
  cases res <;> rfl

@[simp]
theorem separate_audio_output (res : Except String Unit) (j : JobTrace) :
    (separate_audio res j).1.record.output_file = j.record.output_file := by
  cases res <;> rfl

@[simp]
theorem separate_audio_step (res : Except String Unit) (j : JobTrace) :
    (separate_audio res j).1.record.step = some "separating" := by
  cases res <;> rfl

@[simp]
theorem transcribe_audio_status (res : Except String (List TimedSegment)) (j : JobTrace) :
    (transcribe_audio res j).1.record.status = j.record.status := by
  cases res with
  | error e => rfl
  | ok segs => by_cases h : segs.isEmpty <;> simp [transcribe_audio, h, upd_prog_status, upd_stage_status]

@[simp]
theorem transcribe_audio_error (res : Except String (List TimedSegment)) (j : JobTrace) :
    (transcribe_audio res j).1.record.error = j.record.error := by
  cases res with
  | error e => rfl
  | ok segs => by_cases h : segs.isEmpty <;> simp [transcribe_audio, h, upd_prog_error, upd_stage_error]

@[simp]
theorem transcribe_audio_output (res : Except String (List TimedSegment)) (j : JobTrace) :
    (transcribe_audio res j).1.record.output_file = j.record.output_file := by
  cases res with
  | error e => rfl
  | ok segs => by_cases h : segs.isEmpty <;> simp [transcribe_audio, h, upd_prog_output, upd_stage_output]

@[simp]
theorem translate_loop_status (tr : String → Except String String) (n : ℕ) :
    ∀ (segs : List TimedSegment) (i : ℕ) (j : JobTrace),
      (translate_loop tr n segs i j).1.record.status = j.record.status
  | [], _, _ => rfl
  | seg :: rest, i, j => by
    by_cases h : seg.text = "" <;>
      simp [translate_loop, h, translate_loop_status tr n rest (i + 1), upd_prog_status]

@[simp]
theorem translate_loop_error (tr : String → Except String String) (n : ℕ) :
    ∀ (segs : List TimedSegment) (i : ℕ) (j : JobTrace),
      (translate_loop tr n segs i j).1.record.error = j.record.error
  | [], _, _ => rfl
  | seg :: rest, i, j => by
    by_cases h : seg.text = "" <;>
      simp [translate_loop, h, translate_loop_error tr n rest (i + 1), upd_prog_error]

@[simp]
theorem translate_loop_output (tr : String → Except String String) (n : ℕ) :
    ∀ (segs : List TimedSegment) (i : ℕ) (j : JobTrace),
      (translate_loop tr n segs i j).1.record.output_file = j.record.output_file
  | [], _, _ => rfl
  | seg :: rest, i, j => by
    by_cases h : seg.text = "" <;>
      simp [translate_loop, h, translate_loop_output tr n rest (i + 1), upd_prog_output]

@[simp]
theorem translate_loop_out (tr : String → Except String String) (n : ℕ) :
    ∀ (segs : List TimedSegment) (i : ℕ) (j : JobTrace),
      (translate_loop tr n segs i j).2 = segs.map (translate_one tr)
  | [], _, _ => rfl
  | seg :: rest, i, j => by
    by_cases h : seg.text = "" <;>
      simp [translate_loop, h, translate_loop_out tr n rest (i + 1)]

@[simp]
theorem translate_segments_status (tr : String → Except String String)
    (segs : List TimedSegment) (j : JobTrace) :
    (translate_segments tr segs j).1.record.status = j.record.status := by
  simp [translate_segments, translate_loop_status, upd_stage_status]

@[simp]
theorem translate_segments_error (tr : String → Except String String)
    (segs : List TimedSegment) (j : JobTrace) :
    (translate_segments tr segs j).1.record.error = j.record.error := by
  simp [translate_segments, translate_loop_error, upd_stage_error]

@[simp]
theorem translate_segments_output (tr : String → Except String String)
    (segs : List TimedSegment) (j : JobTrace) :
    (translate_segments tr segs j).1.record.output_file = j.record.output_file := by
  simp [translate_segments, translate_loop_output, upd_stage_output]

@[simp]
theorem translate_segments_out (tr : String → Except String String)
    (segs : List TimedSegment) (j : JobTrace) :
    (translate_segments tr segs j).2 = segs.map (translate_one tr) := by
  simp [translate_segments, translate_loop_out]

@[simp]
theorem synthesize_tts_status (synth : ℕ → String → Except String ℕ)
    (load : ℕ → Except String ℕ) (segs : List TimedSegment) (j : JobTrace) :
    (synthesize_tts synth load segs j).1.record.status = j.record.status := by
  cases hg : gen_clips synth segs 0 with
  | error e => simp [synthesize_tts, hg, upd_stage_status]
  | ok fs =>
    by_cases h : fs.isEmpty <;>
      simp [synthesize_tts, hg, h, upd_prog_status, upd_stage_status]

@[simp]
theorem synthesize_tts_error (synth : ℕ → String → Except String ℕ)
    (load : ℕ → Except String ℕ) (segs : List TimedSegment) (j : JobTrace) :
    (synthesize_tts synth load segs j).1.record.error = j.record.error := by
  cases hg : gen_clips synth segs 0 with
  | error e => simp [synthesize_tts, hg, upd_stage_error]
  | ok fs =>
    by_cases h : fs.isEmpty <;>
      simp [synthesize_tts, hg, h, upd_prog_error, upd_stage_error]

@[simp]
theorem synthesize_tts_output (synth : ℕ → String → Except String ℕ)
    (load : ℕ → Except String ℕ) (segs : List TimedSegment) (j : JobTrace) :
    (synthesize_tts synth load segs j).1.record.output_file = j.record.output_file := by
  cases hg : gen_clips synth segs 0 with
  | error e => simp [synthesize_tts, hg, upd_stage_output]
  | ok fs =>
    by_cases h : fs.isEmpty <;>
      simp [synthesize_tts, hg, h, upd_prog_output, upd_stage_output]

@[simp]
theorem mix_audio_video_status (res : Except String Unit) (j : JobTrace) :
    (mix_audio_video res j).1.record.status = j.record.status := by
  cases res <;> rfl

@[simp]
theorem mix_audio_video_error (res : Except String Unit) (j : JobTrace) :
    (mix_audio_video res j).1.record.error = j.record.error := by
  cases res <;> rfl

@[simp]
theorem mix_audio_video_output (res : Except String Unit) (j : JobTrace) :
    (mix_audio_video res j).1.record.output_file = j.record.output_file := by
  cases res <;> rfl

/-- Every run ends in exactly one of the two terminal updates, applied to
an in-flight trace whose record still has `status="processing"` and unset
`error`/`output_file` (the intermediate updates never name those three
fields). -/
theorem run_pipeline_terminal (env : Env) (j : JobTrace) :
    (∃ jf e, run_pipeline env j = upd_fail jf e
      ∧ jf.record.status = some "processing"
      ∧ jf.record.error = Option.none
      ∧ jf.record.output_file = Option.none)
    ∨ (∃ jf out, run_pipeline env j = upd_complete jf out
      ∧ jf.record.status = some "processing"
      ∧ jf.record.error = Option.none
      ∧ jf.record.output_file = Option.none) := by
  simp only [run_pipeline]
  split
  · exact Or.inl ⟨_, _, rfl, by simp, by simp, by simp⟩
  · split
    · exact Or.inl ⟨_, _, rfl, by simp, by simp, by simp⟩
    · split
      · exact Or.inl ⟨_, _, rfl, by simp, by simp, by simp⟩
      · split
        · exact Or.inl ⟨_, _, rfl, by simp, by simp, by simp⟩
        · split
          · exact Or.inl ⟨_, _, rfl, by simp, by simp, by simp⟩
          · exact Or.inr ⟨_, _, rfl, by simp, by simp, by simp⟩

/-- C2: over every run of the pipeline the final job record satisfies:
`error` is set iff `status="failed"`, and `output_file` is set only when
`status="completed"` (so never on a failure); moreover when a stage raises
— witnessed here by the separate stage, the spec's own test scenario — the
job goes directly to `failed` with that error's message recorded, the
`step` field still naming the failing stage (no subsequent stage ran), and
`output_file` unset. -/
theorem job_error_iff_failed (env : Env) (j : JobTrace) :
    ((run_pipeline env j).record.error ≠ Option.none
      ↔ (run_pipeline env j).record.status = some "failed")
    ∧ ((run_pipeline env j).record.output_file ≠ Option.none
      → (run_pipeline env j).record.status = some "completed")
    ∧ ((run_pipeline env j).record.status = some "failed"
      → (run_pipeline env j).record.output_file = Option.none)
    ∧ (∀ e, env.download = .ok () → env.separate = .error e →
      (run_pipeline env j).record.status = some "failed"
      ∧ (run_pipeline env j).record.error = some e
      ∧ (run_pipeline env j).record.output_file = Option.none
      ∧ (run_pipeline env j).record.step = some "separating") := by
  refine ⟨?_, ?_, ?_, ?_⟩
  · rcases run_pipeline_terminal env j with ⟨jf, e, hrun, _, _, _⟩ | ⟨jf, out, hrun, _, herr, _⟩
    · rw [hrun]
      simp
    · rw [hrun]
      constructor
      · intro h
        rw [upd_complete_error, herr] at h
        exact absurd rfl h
      · intro h
        rw [upd_complete_status] at h
        exact absurd h (by decide)
  · rcases run_pipeline_terminal env j with ⟨jf, e, hrun, _, _, hout⟩ | ⟨jf, out, hrun, _, _, _⟩
    · intro h
      rw [hrun, upd_fail_output, hout] at h
      exact absurd rfl h
    · intro _
      rw [hrun, upd_complete_status]
  · rcases run_pipeline_terminal env j with ⟨jf, e, hrun, _, _, hout⟩ | ⟨jf, out, hrun, _, _, _⟩
    · intro _
      rw [hrun, upd_fail_output, hout]
    · intro h
      rw [hrun, upd_complete_status] at h
      exact absurd h (by decide)
  · intro e h1 h2
    simp only [run_pipeline, h1, h2, download_video, separate_audio]
    exact ⟨rfl, rfl, rfl, rfl⟩

/-- An environment where the separate stage raises and everything else
would succeed. -/
def env_sep_fail : Env := { env_all_ok with separate := .error "Demucs failed: boom" }

/-- C2 witness: a concrete run whose separate stage raises ends `failed`
with the message recorded, no output file, and the step still
"separating". -/
theorem job_error_iff_failed_witness :
    (run_pipeline env_sep_fail initial_job).record.status = some "failed"
    ∧ (run_pipeline env_sep_fail initial_job).record.error = some "Demucs failed: boom"
    ∧ (run_pipeline env_sep_fail initial_job).record.output_file = Option.none
    ∧ (run_pipeline env_sep_fail initial_job).record.step = some "separating" := by
  exact (job_error_iff_failed env_sep_fail initial_job).2.2.2 "Demucs failed: boom" rfl rfl

/-! ## Lemmas about clip generation and assembly -/

/-- The segments whose effective text is non-empty — exactly those the
generation loop synthesizes a clip for. -/
def nonempty_segs (segs : List TimedSegment) : List TimedSegment :=
  segs.filter (fun s => effective_text s != "")

theorem gen_clips_all_empty (synth : ℕ → String → Except String ℕ) :
    ∀ (segs : List TimedSegment) (i : ℕ), (∀ s ∈ segs, effective_text s = "") →
      gen_clips synth segs i = .ok []
  | [], _, _ => rfl
  | seg :: rest, i, h => by
    have h1 : effective_text seg = "" := h seg (List.mem_cons_self _ _)
    simp [gen_clips, h1,
      gen_clips_all_empty synth rest (i + 1) (fun s hs => h s (List.mem_cons_of_mem _ hs))]

theorem gen_clips_length (synth : ℕ → String → Except String ℕ) :
    ∀ (segs : List TimedSegment) (i : ℕ) (fs : List TtsFile),
      gen_clips synth segs i = .ok fs → fs.length = (nonempty_segs segs).length
  | [], _, fs, h => by
    simp only [gen_clips] at h
    cases h
    rfl
  | seg :: rest, i, fs, h => by
    by_cases h1 : effective_text seg = ""
    · simp only [gen_clips, h1, if_pos] at h
      rw [gen_clips_length synth rest (i + 1) fs h]
      simp [nonempty_segs, h1]
    · simp only [gen_clips, h1, if_neg] at h
      cases hs : synth i (effective_text seg) with
      | error e => rw [hs] at h; cases h
      | ok c =>
        rw [hs] at h
        cases hg : gen_clips synth rest (i + 1) with
        | error e => rw [hg] at h; cases h
        | ok files =>
          rw [hg] at h
          cases h
          have := gen_clips_length synth rest (i + 1) files hg
          simp [nonempty_segs, h1, List.filter_cons] at this ⊢
          omega

theorem gen_clips_ok_of_synth_ok (synth : ℕ → String → Except String ℕ)
    (hok : ∀ i t, ∃ c, synth i t = .ok c) :
    ∀ (segs : List TimedSegment) (i : ℕ), ∃ fs, gen_clips synth segs i = .ok fs
  | [], _ => ⟨[], rfl⟩
  | seg :: rest, i => by
    by_cases h1 : effective_text seg = ""
    · obtain ⟨fs, hfs⟩ := gen_clips_ok_of_synth_ok synth hok rest (i + 1)
      exact ⟨fs, by simp [gen_clips, h1, hfs]⟩
    · obtain ⟨c, hc⟩ := hok i (effective_text seg)
      obtain ⟨fs, hfs⟩ := gen_clips_ok_of_synth_ok synth hok rest (i + 1)
      exact ⟨{ clip := c, startMs := seg.startMs, endMs := seg.endMs } :: fs,
        by simp [gen_clips, h1, hc, hfs]⟩

theorem overlay_clips_duration (load : ℕ → Except String ℕ) :
    ∀ (files : List TtsFile) (t : Track),
      (overlay_clips load files t).durationMs = t.durationMs
  | [], _ => rfl
  | f :: rest, t => by
    cases hl : load f.clip with
    | error e => simp [overlay_clips, hl, overlay_clips_duration load rest]
    | ok c => simp [overlay_clips, hl, overlay_clips_duration load rest]

theorem max_end_bound (segs : List TimedSegment) :
    ∀ acc, (∀ s ∈ segs, s.endMs ≤ segs.foldl (fun a s => max a s.endMs) acc)
      ∧ acc ≤ segs.foldl (fun a s => max a s.endMs) acc := by
  induction segs with
  | nil => intro acc; simp
  | cons x xs ih =>
    intro acc
    have h := ih (max acc x.endMs)
    simp only [List.foldl_cons]
    constructor
    · intro s hs
      rcases List.mem_cons.mp hs with rfl | hmem
      · exact le_trans (le_max_right acc s.endMs) h.2
      · exact h.1 s hmem
    · exact le_trans (le_max_left acc x.endMs) h.2

theorem le_max_end (segs : List TimedSegment) (s : TimedSegment) (hs : s ∈ segs) :
    s.endMs ≤ max_end segs := (max_end_bound segs 0).1 s hs

/-- When a stage list is known non-nil, `isEmpty` computes to `false`. -/
theorem isEmpty_false_of_ne_nil {α : Type} {l : List α} (h : l ≠ []) :
    l.isEmpty = false := by
  cases l with
  | nil => exact absurd rfl h
  | cons a t => rfl

/-- A non-empty transcript passes the no-speech guard. -/
theorem transcribe_audio_ok (segs : List TimedSegment) (hne : segs ≠ []) (j : JobTrace) :
    transcribe_audio (.ok segs) j
      = (upd_prog (upd_stage j "transcribing" 40 "Transcribing speech...") 55
          s!"Transcribed {segs.length} segments", .ok segs) := by
  simp [transcribe_audio, isEmpty_false_of_ne_nil hne]

/-- When clip generation succeeds with at least one clip, `synthesize_tts`
succeeds with the assembled track (whatever the loader does). -/
theorem synthesize_tts_ok (synth : ℕ → String → Except String ℕ)
    (load : ℕ → Except String ℕ) (segs : List TimedSegment) (fs : List TtsFile)
    (hfs : gen_clips synth segs 0 = .ok fs) (hne : fs ≠ []) (j : JobTrace) :
    synthesize_tts synth load segs j
      = (upd_prog (upd_stage j "synthesizing" 75 "Generating dubbed audio...") 85
          "TTS synthesis complete",
        .ok (overlay_clips load fs { durationMs := max_end segs + 5000, placements := [] })) := by
  simp [synthesize_tts, hfs, isEmpty_false_of_ne_nil hne, hne]

/-- A fully successful path: when download/separate/mix succeed, the
transcript is non-empty and clip generation over the translated segments
yields at least one clip, the run ends `completed` with no error — for
*any* behaviour of the per-clip loading step. -/
theorem run_pipeline_success_char (env : Env) (segs : List TimedSegment) (j : JobTrace)
    (hdl : env.download = .ok ()) (hsep : env.separate = .ok ())
    (htr : env.transcribe = .ok segs) (hsegs : segs ≠ [])
    (hgen : ∃ fs, gen_clips env.synth (segs.map (translate_one env.translator)) 0 = .ok fs
      ∧ fs ≠ [])
    (hmix : env.mix = .ok ()) :
    (run_pipeline env j).record.status = some "completed"
    ∧ (run_pipeline env j).record.error = Option.none := by
  obtain ⟨fs, hfs, hfs0⟩ := hgen
  simp only [run_pipeline, hdl, hsep, htr, download_video, separate_audio,
    transcribe_audio_ok segs hsegs, translate_segments_out]
  rw [synthesize_tts_ok env.synth env.load _ fs hfs hfs0]
  simp only [mix_audio_video, hmix]
  constructor <;> simp

/-- Success under an all-succeeding synthesizer with at least one
translated segment of non-empty effective text (per-clip load failures
notwithstanding). -/
theorem run_completes_of_synth_ok (env : Env) (segs : List TimedSegment) (j : JobTrace)
    (hdl : env.download = .ok ()) (hsep : env.separate = .ok ())
    (htr : env.transcribe = .ok segs)
    (hsynth : ∀ i t, ∃ c, env.synth i t = .ok c)
    (hmix : env.mix = .ok ())
    (hne : ∃ s ∈ segs, effective_text (translate_one env.translator s) ≠ "") :
    (run_pipeline env j).record.status = some "completed"
    ∧ (run_pipeline env j).record.error = Option.none := by
  obtain ⟨s, hsmem, hseff⟩ := hne
  have hsegs : segs ≠ [] := by
    intro hnil
    rw [hnil] at hsmem
    cases hsmem
  obtain ⟨fs, hfs⟩ :=
    gen_clips_ok_of_synth_ok env.synth hsynth (segs.map (translate_one env.translator)) 0
  have hlen := gen_clips_length env.synth _ 0 fs hfs
  have hmem2 : translate_one env.translator s ∈ nonempty_segs (segs.map (translate_one env.translator)) := by
    rw [nonempty_segs, List.mem_filter]
    exact ⟨List.mem_map_of_mem _ hsmem, by simpa using hseff⟩
  have hfs0 : fs ≠ [] := by
    intro hnil
    rw [hnil] at hlen
    have hpos : 0 < (nonempty_segs (segs.map (translate_one env.translator))).length :=
      List.length_pos.mpr (List.ne_nil_of_mem hmem2)
    simp at hlen
    omega
  exact run_pipeline_success_char env segs j hdl hsep htr hsegs ⟨fs, hfs, hfs0⟩ hmix

/-! ## Claims C3, C6, C7, C8 -/

/-- A second non-empty segment. -/
def seg_b : TimedSegment :=
  { startMs := 2000, endMs := 5000, text := "go now", translated := Option.none }

/-- An environment with two non-empty segments where the synthesis call
fails on the second segment (and would succeed on the first). -/
def env_synth_fail : Env :=
  { env_all_ok with
      transcribe := .ok [seg_demo, seg_b]
      synth := fun i _ => if i = 1 then .error "edge-tts: connection reset" else .ok i }

/-- C3 counterexample: with two non-empty segments where the first
synthesis call succeeds and the second fails, the stage aborts and the
failure surfaces in the job's `error` field — the generation loop
(pipeline.py lines 301-314) has no per-segment exception guard. -/
theorem synthesis_failure_aborts_stage :
    (run_pipeline env_synth_fail initial_job).record.status = some "failed"
    ∧ (run_pipeline env_synth_fail initial_job).record.error
      = some "edge-tts: connection reset" := by
  exact ⟨rfl, rfl⟩

/-- C3 (amended): the skip-and-continue recovery applies to the per-clip
assembly step, not to the synthesis call: when every synthesis call
succeeds and at least one translated segment has non-empty effective text,
the stage and the whole run complete with no error surfaced — for *every*
behaviour of the per-clip load/compress/overlay step (`env.load`
unconstrained), so any number of per-clip assembly failures is skipped
silently.  (A failure of the synthesis call itself, by contrast, aborts
the stage — see the counterexample.) -/
theorem assembly_failure_skipped (env : Env) (segs : List TimedSegment) (j : JobTrace)
    (hdl : env.download = .ok ()) (hsep : env.separate = .ok ())
    (htr : env.transcribe = .ok segs)
    (hsynth : ∀ i t, ∃ c, env.synth i t = .ok c)
    (hmix : env.mix = .ok ())
    (hne : ∃ s ∈ segs, effective_text (translate_one env.translator s) ≠ "") :
    (run_pipeline env j).record.status = some "completed"
    ∧ (run_pipeline env j).record.error = Option.none :=
  run_completes_of_synth_ok env segs j hdl hsep htr hsynth hmix hne

/-- An environment where every per-clip load fails but synthesis succeeds. -/
def env_load_fail : Env :=
  { env_all_ok with
      transcribe := .ok [seg_demo, seg_b]
      load := fun _ => .error "pydub: decode error" }

/-- C3 witness: a run in which loading *every* synthesized clip fails
still completes with no error. -/
theorem assembly_failure_skipped_witness :
    (run_pipeline env_load_fail initial_job).record.status = some "completed"
    ∧ (run_pipeline env_load_fail initial_job).record.error = Option.none := by
  exact assembly_failure_skipped env_load_fail [seg_demo, seg_b] initial_job rfl rfl rfl
    (fun i t => ⟨i, rfl⟩) rfl (by decide)

/-- C6: when every segment's effective text is empty the synthesis stage
raises the hard error "No TTS segments generated" instead of returning an
empty track as success; and in general the generated clip list is 1:1 with
the segments of non-empty effective text (an empty-text segment produces
no clip). -/
theorem zero_segments_hard_error :
    (∀ (synth : ℕ → String → Except String ℕ) (load : ℕ → Except String ℕ)
      (segs : List TimedSegment) (j : JobTrace),
      (∀ s ∈ segs, effective_text s = "") →
      (synthesize_tts synth load segs j).2 = .error "No TTS segments generated")
    ∧ (∀ (synth : ℕ → String → Except String ℕ) (segs : List TimedSegment) (i : ℕ)
      (fs : List TtsFile), gen_clips synth segs i = .ok fs →
      fs.length = (nonempty_segs segs).length) := by
  constructor
  · intro synth load segs j h
    simp [synthesize_tts, gen_clips_all_empty synth segs 0 h]
  · intro synth segs i fs h
    exact gen_clips_length synth segs i fs h

/-- A segment with empty text. -/
def seg_empty : TimedSegment :=
  { startMs := 5000, endMs := 6000, text := "", translated := Option.none }

/-- C6 witness: one empty-text segment → the stage fails hard; and over
`[seg_demo, seg_empty]` generation produces exactly one clip (for the one
non-empty segment). -/
theorem zero_segments_witness :
    (synthesize_tts (fun i _ => .ok i) (fun _ => .ok 1000) [seg_empty] initial_job).2
      = .error "No TTS segments generated"
    ∧ ([{ clip := 0, startMs := 0, endMs := 2000 }] : List TtsFile).length
      = (nonempty_segs [seg_demo, seg_empty]).length := by
  constructor
  · exact zero_segments_hard_error.1 (fun i _ => .ok i) (fun _ => .ok 1000) [seg_empty]
      initial_job (by decide)
  · exact zero_segments_hard_error.2 (fun i _ => .ok i) [seg_demo, seg_empty] 0
      [{ clip := 0, startMs := 0, endMs := 2000 }] rfl

/-- C7: a failing translation call is recovered per segment by substituting
the segment's original text as its translation (the stage continues and
returns one output per input segment), and a run in which *every*
translation call raises still reaches `completed` (never `failed`),
provided the surrounding stages succeed. -/
theorem translation_fallback_completes :
    (∀ (tr : String → Except String String) (seg : TimedSegment) (e : String),
      seg.text ≠ "" → tr seg.text = .error e →
      translate_one tr seg = { seg with translated := some seg.text })
    ∧ (∀ (tr : String → Except String String) (segs : List TimedSegment) (j : JobTrace),
      (translate_segments tr segs j).2 = segs.map (translate_one tr))
    ∧ (∀ (env : Env) (segs : List TimedSegment) (j : JobTrace),
      env.download = .ok () → env.separate = .ok () → env.transcribe = .ok segs →
      (∀ t, ∃ e, env.translator t = .error e) →
      (∀ i t, ∃ c, env.synth i t = .ok c) → env.mix = .ok () →
      (∃ s ∈ segs, s.text ≠ "") →
      (run_pipeline env j).record.status = some "completed"
      ∧ (run_pipeline env j).record.error = Option.none) := by
  refine ⟨?_, ?_, ?_⟩
  · intro tr seg e hne htr
    simp [translate_one, hne, htr]
  · intro tr segs j
    exact translate_segments_out tr segs j
  · intro env segs j hdl hsep htr htrfail hsynth hmix hex
    obtain ⟨s, hsmem, hstext⟩ := hex
    obtain ⟨e, he⟩ := htrfail s.text
    refine run_completes_of_synth_ok env segs j hdl hsep htr hsynth hmix ⟨s, hsmem, ?_⟩
    simp [translate_one, effective_text, hstext, he]

/-- An environment whose translator always raises. -/
def env_tr_fail : Env :=
  { env_all_ok with translator := fun _ => .error "googletrans: timeout" }

/-- C7 witness: a concrete run where every translation call raises still
ends `completed` with no error, and the failing segment's translation is
its original text. -/
theorem translation_fallback_witness :
    translate_one (fun _ => .error "googletrans: timeout") seg_demo
      = { seg_demo with translated := some seg_demo.text }
    ∧ (run_pipeline env_tr_fail initial_job).record.status = some "completed"
    ∧ (run_pipeline env_tr_fail initial_job).record.error = Option.none := by
  have h1 := translation_fallback_completes.1 (fun _ => .error "googletrans: timeout")
    seg_demo "googletrans: timeout" (by decide) rfl
  have h2 := translation_fallback_completes.2.2 env_tr_fail [seg_demo] initial_job
    rfl rfl rfl (fun t => ⟨"googletrans: timeout", rfl⟩) (fun i t => ⟨i, rfl⟩) rfl
    ⟨seg_demo, by simp, by decide⟩
  exact ⟨h1, h2.1, h2.2⟩

/-- C8: for a non-empty segment list, the assembled track's allocated
duration equals the maximum segment end plus the fixed 5-second (5000 ms)
trailing pad, hence every segment's end (the maximum included) sits at
least the full pad before the end of the track. -/
theorem track_duration_padded (synth : ℕ → String → Except String ℕ)
    (load : ℕ → Except String ℕ) (segs : List TimedSegment) (j : JobTrace)
    (track : Track) (_hne : segs ≠ [])
    (h : (synthesize_tts synth load segs j).2 = .ok track) :
    track.durationMs = max_end segs + 5000
    ∧ ∀ s ∈ segs, s.endMs + 5000 ≤ track.durationMs := by
  cases hg : gen_clips synth segs 0 with
  | error e =>
    rw [synthesize_tts] at h
    rw [hg] at h
    cases h
  | ok fs =>
    cases hfs : fs.isEmpty with
    | true =>
      simp only [synthesize_tts, hg, hfs] at h
      cases h
    | false =>
      simp only [synthesize_tts, hg, hfs] at h
      have htrack :
          overlay_clips load fs { durationMs := max_end segs + 5000, placements := [] }
            = track := by
        simpa using h
      constructor
      · rw [← htrack, overlay_clips_duration]
      · intro s hs
        rw [← htrack, overlay_clips_duration]
        exact Nat.add_le_add_right (le_max_end segs s hs) 5000

/-- C8 witness: the two-segment transcript assembles into a track of
`max_end + 5000 = 10000` ms, with both clips placed uncompressed. -/
theorem track_duration_witness :
    (synthesize_tts (fun i _ => .ok i) (fun _ => .ok 1000) [seg_demo, seg_b] initial_job).2
      = .ok { durationMs := 10000, placements := [(0, 1000), (2000, 1000)] }
    ∧ ({ durationMs := 10000, placements := [(0, 1000), (2000, 1000)] } : Track).durationMs
      = max_end [seg_demo, seg_b] + 5000
    ∧ ∀ s ∈ [seg_demo, seg_b], s.endMs + 5000 ≤ 10000 := by
  have hok : (synthesize_tts (fun i _ => .ok i) (fun _ => .ok 1000)
      [seg_demo, seg_b] initial_job).2
      = .ok { durationMs := 10000, placements := [(0, 1000), (2000, 1000)] } := by decide
  have h := track_duration_padded (fun i _ => .ok i) (fun _ => .ok 1000) [seg_demo, seg_b]
    initial_job { durationMs := 10000, placements := [(0, 1000), (2000, 1000)] }
    (by decide) hok
  exact ⟨hok, h.1, fun s hs => h.2 s hs⟩

end YtDub
